import Mathlib

/-!
Shallow embedding of the PDF OCR / compression / accessibility pipeline of
the `pdf_ua` repository, centered on `pdfua3_ocr_compressed.py` (the variants
`pdfua2-ocr-compressed.py` and `ocr_image_compressed.py` share the same core
logic).  Pure computations (string transforms, coordinate mapping, the
token-filter loop) are translated directly; external effects (pikepdf edits,
uuid generation, the batch loop's exception handling) are modelled as explicit
state passing with an oracle of step failures.  Real-number page geometry is
modelled over the rationals.
-/

namespace PdfUa

/-! ## Python string primitives used by the pipeline -/

/-- ASCII whitespace recognized by Python `str.strip()`. -/
def isPySpace (c : Char) : Bool :=
  c = ' ' || c = '\t' || c = '\n' || c = '\r' || c = '\x0b' || c = '\x0c'

/-- `str.strip()` on a character list: drop whitespace at both ends. -/
def pyStripList (cs : List Char) : List Char :=
  ((cs.dropWhile isPySpace).reverse.dropWhile isPySpace).reverse

/-- `str.strip()` on a string. -/
def pyStrip (s : String) : String :=
  String.mk (pyStripList s.toList)

/-- `str.lower()` (ASCII). -/
def pyLower (s : String) : String :=
  String.mk (s.toList.map Char.toLower)

/-- Single-character `str.replace(a, b)`. -/
def pyReplaceChar (a b : Char) (cs : List Char) : List Char :=
  cs.map fun c => if c = a then b else c

/-- Helper for `str.title()`: the boolean carries whether the previous
character was alphabetic (Python: cased). -/
def pyTitleAux : Bool → List Char → List Char
  | _, [] => []
  | prevAlpha, c :: rest =>
    (if c.isAlpha then (if prevAlpha then c.toLower else c.toUpper) else c)
      :: pyTitleAux c.isAlpha rest

/-- `str.title()`: first letter of each alphabetic run uppercased, the rest
lowercased, non-letters passed through. -/
def pyTitleList (cs : List Char) : List Char :=
  pyTitleAux false cs

/-- `os.path.basename` (POSIX): the part after the last slash. -/
def basenameList (cs : List Char) : List Char :=
  ((cs.reverse.takeWhile (fun c => c ≠ '/')).reverse)

/-- Index of the last occurrence of `'.'`, if any. -/
def lastDotIdx (cs : List Char) : Option Nat :=
  (cs.reverse.findIdx? (fun c => c = '.')).map (fun i => cs.length - 1 - i)

/-- `os.path.splitext(...)[0]` on a bare filename (no separators): split at
the last dot unless every character before it is itself a dot (Python treats
leading dots as part of the root, not an extension). -/
def splitextRootList (cs : List Char) : List Char :=
  match lastDotIdx cs with
  | none => cs
  | some d => if (cs.take d).any (fun c => c ≠ '.') then cs.take d else cs

/-- The title derivation of `create_ocr_compressed_pdf` (line 201):
`os.path.splitext(os.path.basename(input_path))[0].replace('_', ' ').title()`. -/
def deriveTitle (input_path : String) : String :=
  String.mk (pyTitleList (pyReplaceChar '_' ' ' (splitextRootList (basenameList input_path.toList))))

/-! ## OCR tokens and the invisible-text-layer loop -/

/-- One OCR token as consumed from `pytesseract.image_to_data` output:
`word = ocr_data['text'][i]`, `conf = int(ocr_data['conf'][i])`, and the
pixel bounding box `left, top, width, height`.  Confidence is an integer
(tesseract reports `-1` on non-word boxes, so `Int`). -/
structure OcrToken where
  text : String
  conf : Int
  left : Int
  top : Int
  width : Int
  height : Int
deriving DecidableEq

/-- The per-token guard at line 267: `if word.strip() and conf > 50` (a
Python string is truthy exactly when nonempty). -/
def tokenPasses (t : OcrToken) : Bool :=
  decide (pyStrip t.text ≠ "") && decide ((50 : Int) < t.conf)

/-- A PDF rectangle `fitz.Rect(x0, y0, x1, y1)` in points, over ℚ. -/
structure Rect where
  x0 : ℚ
  y0 : ℚ
  x1 : ℚ
  y1 : ℚ
deriving DecidableEq

/-- The scale computation at lines 258-259:
`scale_x = source_page.rect.width / pix.width` and likewise for y. -/
def scaleFactors (w_pt h_pt : ℚ) (w_px h_px : ℕ) : ℚ × ℚ :=
  (w_pt / (w_px : ℚ), h_pt / (h_px : ℚ))

/-- The box mapping at line 271:
`fitz.Rect(left*scale_x, top*scale_y, (left+w)*scale_x, (top+h)*scale_y)`. -/
def wordRect (sx sy : ℚ) (left top w h : Int) : Rect :=
  ⟨(left : ℚ) * sx, (top : ℚ) * sy, ((left : ℚ) + (w : ℚ)) * sx, ((top : ℚ) + (h : ℚ)) * sy⟩

/-- One `insert_textbox` call (line 275): rectangle, text, `fontsize=8`,
`color=(0,0,0)`, `fill_opacity=0`. -/
structure TextInsertion where
  rect : Rect
  text : String
  fontsize : ℕ
  color : ℚ × ℚ × ℚ
  fill_opacity : ℚ
deriving DecidableEq

/-- The insertion built for a passing token. -/
def mkInsertion (sx sy : ℚ) (t : OcrToken) : TextInsertion :=
  { rect := wordRect sx sy t.left t.top t.width t.height
    text := t.text
    fontsize := 8
    color := (0, 0, 0)
    fill_opacity := 0 }

/-- The loop at lines 262-275: for each token in engine order, insert an
invisible text box exactly when the guard holds. -/
def insertTextLayer (sx sy : ℚ) : List OcrToken → List TextInsertion
  | [] => []
  | t :: ts =>
    if tokenPasses t then
      mkInsertion sx sy t :: insertTextLayer sx sy ts
    else
      insertTextLayer sx sy ts

/-! ## Image compression (color-mode normalization) -/

/-- PIL color modes relevant to the pipeline's rasters. -/
inductive PILMode where
  | L
  | LA
  | P
  | PA
  | RGB
  | RGBA
  | CMYK
deriving DecidableEq

/-- Whether the mode carries an alpha channel. -/
def hasAlpha : PILMode → Bool
  | .LA => true
  | .PA => true
  | .RGBA => true
  | _ => false

/-- Whether the mode is palette-based. -/
def hasPalette : PILMode → Bool
  | .P => true
  | .PA => true
  | _ => false

/-- The normalization at lines 248-249:
`if pil_image.mode in ("RGBA", "P"): pil_image = pil_image.convert("RGB")`. -/
def jpegPrepare (m : PILMode) : PILMode :=
  if m = .RGBA || m = .P then .RGB else m

/-- Modelled from the spec: the JPEG encoder is the external Pillow library,
out of scope of the repository; per the spec's Image Compressor contract,
a lossy-format background cannot carry alpha (or a palette), so encoding
hard-fails exactly when the mode still carries one. -/
def jpegEncodeOk (m : PILMode) : Bool :=
  !(hasAlpha m || hasPalette m)

/-! ## Page synthesis and document assembly -/

/-- One source page as the per-page loop sees it: the PDF-point rectangle
(`source_page.rect`), the raster produced by `get_pixmap` (pixel dimensions
and PIL color mode), and the OCR engine's token sequence for that raster
(the rasterizer and the OCR engine are external black boxes; their outputs
are recorded as data). -/
structure SourcePage where
  width : ℚ
  height : ℚ
  pixWidth : ℕ
  pixHeight : ℕ
  mode : PILMode
  ocr : List OcrToken
deriving DecidableEq

/-- One output page: dimensions, the single compressed background image
(represented by its color mode after JPEG preparation), and the invisible
text insertions. -/
structure OutputPage where
  width : ℚ
  height : ℚ
  background : PILMode
  insertions : List TextInsertion
deriving DecidableEq

/-- The body of the per-page loop (lines 227-275): create an output page of
the source page's dimensions, insert the compressed background, compute the
scale factors and run the invisible-text loop. -/
def synthesizePage (p : SourcePage) : OutputPage :=
  let s := scaleFactors p.width p.height p.pixWidth p.pixHeight
  { width := p.width
    height := p.height
    background := jpegPrepare p.mode
    insertions := insertTextLayer s.1 s.2 p.ocr }

/-- The page loop of `create_ocr_compressed_pdf`: one output page appended
per source page, in order. -/
def buildPages : List SourcePage → List OutputPage
  | [] => []
  | p :: ps => synthesizePage p :: buildPages ps

/-- Output document metadata record set by `set_metadata`. -/
structure DocMetadata where
  title : String
  author : String
  subject : String
  keywords : String
deriving DecidableEq

/-- Fixed institutional default (line 202). -/
def authorDefault : String := "University of Arizona Libraries"

/-- Fixed institutional default (line 203). -/
def subjectDefault : String := "Lymphology Journal Article"

/-- Fixed institutional default (line 204). -/
def keywordsDefault : String := "OCR, accessibility, PDF/UA, Lymphology"

/-- The output document assembled by `create_ocr_compressed_pdf`. -/
structure OutputDoc where
  metadata : DocMetadata
  language : String
  pages : List OutputPage
deriving DecidableEq

/-- `create_ocr_compressed_pdf` (lines 180-286): derive the title from the
input path, set metadata and language, synthesize every page in order, and
return the document together with the `(doc_title, author, subject, keywords)`
tuple handed to the metadata injector. -/
def create_ocr_compressed_pdf (input_path : String) (source_pages : List SourcePage) :
    OutputDoc × (String × String × String × String) :=
  let doc_title := deriveTitle input_path
  let doc : OutputDoc :=
    { metadata :=
        { title := doc_title
          author := authorDefault
          subject := subjectDefault
          keywords := keywordsDefault }
      language := "en-US"
      pages := buildPages source_pages }
  (doc, (doc_title, authorDefault, subjectDefault, keywordsDefault))

/-! ## The accessibility metadata injector (`add_xmp_metadata_and_markinfo`) -/

/-- The structured content of the XMP packet f-string (lines 98-123): each
field records one interpolation site of the template. -/
structure XmpPacket where
  title : String
  creator : String
  description : String
  keywords : String
  producer : String
  createDate : String
  creatorTool : String
  documentID : String
  instanceID : String
  pdfuaPart : ℕ
deriving DecidableEq

/-- Build the XMP packet exactly as the f-string does: producer `pikepdf`,
fixed creator tool, and both `xmpMM:DocumentID` and `xmpMM:InstanceID`
interpolated from the single `instance_id` as `uuid:{instance_id}`. -/
def mkXmpPacket (doc_title author subject keywords now instance_id : String) : XmpPacket :=
  { title := doc_title
    creator := author
    description := subject
    keywords := keywords
    producer := "pikepdf"
    createDate := now
    creatorTool := "UA Libraries OCR and Accessibility Script"
    documentID := "uuid:" ++ instance_id
    instanceID := "uuid:" ++ instance_id
    pdfuaPart := 1 }

/-- A value stored under a key of the document root dictionary. -/
inductive PdfObj where
  | markInfo (marked : Bool)
  | metadataStream (packet : XmpPacket)
  | other (tag : String)
deriving DecidableEq

/-- A pikepdf dictionary: ordered key/value pairs; a PDF dictionary holds
each key at most once. -/
abbrev RootDict : Type := List (String × PdfObj)

/-- pikepdf `dict[key] = value`: replace the binding if the key is present,
else append it. -/
def setEntry : RootDict → String → PdfObj → RootDict
  | [], k, v => [(k, v)]
  | e :: rest, k, v =>
    if e.1 = k then (k, v) :: rest else e :: setEntry rest k v

/-- Number of bindings of a key in a root dictionary. -/
def countKey (root : RootDict) (k : String) : ℕ :=
  root.countP (fun e => e.1 = k)

/-- Lookup of a key in a root dictionary. -/
def lookupEntry (root : RootDict) (k : String) : Option PdfObj :=
  (root.find? (fun e => e.1 = k)).map (fun e => e.2)

/-- The on-disk PDF file, as far as the injector observes and edits it. -/
structure PdfFile where
  root : RootDict
deriving DecidableEq

/-- Environment of external effects consumed by one call of
`add_xmp_metadata_and_markinfo`: the stream of fresh UUIDs `uuid.uuid4()`
would return (call n yields `uuidSupply n`), the current UTC timestamp, and
an oracle saying which of the four fallible external steps (reopening via
`pikepdf.Pdf.open`, the MarkInfo root edit, `make_stream`, `pdf.save`)
raises. -/
structure InjectEnv where
  uuidSupply : ℕ → String
  now : String
  openFails : Bool
  markInfoFails : Bool
  makeStreamFails : Bool
  saveFails : Bool

/-- The body of the `try` block (lines 82-139).  On success it returns the
rewritten file and the number of `uuid.uuid4()` calls performed; on failure
it returns the raised message together with the number of uuid calls that
had already happened.  The disk file is only replaced by `pdf.save`, the
last step (pikepdf with `allow_overwriting_input` writes through a
temporary), so every failure leaves the file as it was. -/
def addXmpBody (env : InjectEnv) (file : PdfFile)
    (doc_title author subject keywords : String) :
    Except (String × ℕ) (PdfFile × ℕ) :=
  if env.openFails then .error ("open failed", 0)
  else if env.markInfoFails then .error ("markinfo failed", 0)
  else
    let root1 := setEntry file.root "/MarkInfo" (.markInfo true)
    let instance_id := env.uuidSupply 0
    let packet := mkXmpPacket doc_title author subject keywords env.now instance_id
    if env.makeStreamFails then .error ("make_stream failed", 1)
    else
      let root2 := setEntry root1 "/Metadata" (.metadataStream packet)
      if env.saveFails then .error ("save failed", 1)
      else .ok (⟨root2⟩, 1)

/-- Observable outcome of one injector call: the file left on disk, how many
fresh UUIDs were drawn, whether the ERROR line was printed, and whether an
exception propagated to the caller. -/
structure InjectTrace where
  file : PdfFile
  uuidCalls : ℕ
  errorLogged : Bool
  raised : Bool
deriving DecidableEq

/-- `add_xmp_metadata_and_markinfo` (lines 67-142): run the body; any
exception is caught by the `except` clause, which prints the error and
returns normally, leaving the previous file in place. -/
def add_xmp_metadata_and_markinfo (env : InjectEnv) (file : PdfFile)
    (doc_title author subject keywords : String) : InjectTrace :=
  match addXmpBody env file doc_title author subject keywords with
  | .ok (f, n) => { file := f, uuidCalls := n, errorLogged := false, raised := false }
  | .error (_, n) => { file := file, uuidCalls := n, errorLogged := true, raised := false }

/-! ## The batch driver (`process_all_pdfs`) -/

/-- Per-file outcome reported by the batch driver's status line. -/
inductive FileStatus where
  | success
  | failure (reason : String)
deriving DecidableEq

/-- The extension test at line 153: `filename.lower().endswith(".pdf")`. -/
def endsWithPdf (filename : String) : Bool :=
  (".pdf".toList).isSuffixOf (pyLower filename).toList

/-- Status derived from one file's fallible processing. -/
def fileStatusOf : Except String Unit → FileStatus
  | .ok _ => .success
  | .error e => .failure e

/-- `process_all_pdfs` (lines 145-172): walk the discovered filenames in
order, skip non-PDF names, and run the per-file pipeline (open, rasterize,
OCR, assemble, inject — abstracted as the fallible `run`) inside the
per-file `try`: a success or a failure-with-reason line is recorded and the
loop continues either way. -/
def process_all_pdfs (run : String → Except String Unit) :
    List String → List (String × FileStatus)
  | [] => []
  | f :: fs =>
    if endsWithPdf f then
      match run f with
      | .ok _ => (f, .success) :: process_all_pdfs run fs
      | .error e => (f, .failure e) :: process_all_pdfs run fs
    else
      process_all_pdfs run fs

/-! ## Helper lemmas -/

/-- The insertion loop is the order-preserving filter of the token list
followed by the per-token insertion map. -/
theorem insertTextLayer_eq_filter_map (sx sy : ℚ) (ts : List OcrToken) :
    insertTextLayer sx sy ts = (ts.filter tokenPasses).map (mkInsertion sx sy) := by
  induction ts with
  | nil => rfl
  | cons t ts ih =>
    by_cases h : tokenPasses t <;> simp [insertTextLayer, List.filter_cons, h, ih]

/-- Projecting the surviving enumerated tokens back to tokens recovers the
plain filtered list. -/
theorem enumFrom_filter_map_snd (ts : List OcrToken) (n : ℕ) :
    (((ts.enumFrom n).filter (fun p => tokenPasses p.2)).map Prod.snd)
      = ts.filter tokenPasses := by
  induction ts generalizing n with
  | nil => rfl
  | cons t ts ih =>
    by_cases h : tokenPasses t <;>
      simp [List.enumFrom, List.filter_cons, h, ih]

/-- The page loop produces exactly the per-page synthesis of each source
page, in order. -/
theorem buildPages_eq_map (ps : List SourcePage) :
    buildPages ps = ps.map synthesizePage := by
  induction ps with
  | nil => rfl
  | cons p ps ih => simp [buildPages, ih]

/-- A key absent from a root dictionary has zero bindings. -/
theorem countKey_eq_zero_of_not_mem (root : RootDict) (k : String)
    (h : k ∉ root.map Prod.fst) : countKey root k = 0 := by
  rw [countKey, List.countP_eq_zero]
  intro a ha
  simp only [decide_eq_true_eq]
  intro hak
  exact h (List.mem_map.mpr ⟨a, ha, hak⟩)

/-- Keys after a pikepdf dictionary assignment: the old keys plus possibly
the new one. -/
theorem mem_keys_setEntry (root : RootDict) (k : String) (v : PdfObj) (x : String) :
    x ∈ (setEntry root k v).map Prod.fst ↔ x ∈ root.map Prod.fst ∨ x = k := by
  induction root with
  | nil => simp [setEntry]
  | cons e rest ih =>
    by_cases h : e.1 = k
    · subst h
      simp [setEntry]
      tauto
    · simp [setEntry, h, ih]
      tauto

/-- Dictionary assignment preserves key uniqueness. -/
theorem nodup_keys_setEntry (root : RootDict) (k : String) (v : PdfObj)
    (h : (root.map Prod.fst).Nodup) : ((setEntry root k v).map Prod.fst).Nodup := by
  induction root with
  | nil => simp [setEntry]
  | cons e rest ih =>
    simp only [List.map_cons, List.nodup_cons] at h
    by_cases he : e.1 = k
    · subst he
      simpa [setEntry] using h
    · simp only [setEntry, if_neg he, List.map_cons, List.nodup_cons]
      refine ⟨?_, ih h.2⟩
      rw [mem_keys_setEntry]
      push_neg
      exact ⟨h.1, he⟩

/-- After assigning a key into a dictionary with unique keys, that key has
exactly one binding. -/
theorem countKey_setEntry_self (root : RootDict) (k : String) (v : PdfObj)
    (h : (root.map Prod.fst).Nodup) : countKey (setEntry root k v) k = 1 := by
  induction root with
  | nil => simp [setEntry, countKey]
  | cons e rest ih =>
    simp only [List.map_cons, List.nodup_cons] at h
    by_cases he : e.1 = k
    · subst he
      have h0 : countKey rest e.1 = 0 := countKey_eq_zero_of_not_mem rest e.1 h.1
      simp [setEntry, countKey, List.countP_cons] at h0 ⊢
      simpa [countKey] using h0
    · simp [setEntry, he, countKey, List.countP_cons]
      simpa [countKey] using ih h.2

/-- Assigning one key leaves the binding count of any other key unchanged. -/
theorem countKey_setEntry_ne (root : RootDict) (k : String) (v : PdfObj)
    (x : String) (hx : x ≠ k) : countKey (setEntry root k v) x = countKey root x := by
  induction root with
  | nil => simp [setEntry, countKey, List.countP_cons, Ne.symm hx]
  | cons e rest ih =>
    by_cases he : e.1 = k
    · subst he
      simp [setEntry, countKey, List.countP_cons, Ne.symm hx]
    · simp [setEntry, he, countKey, List.countP_cons]
      simpa [countKey] using ih

/-- Lookup of a key just assigned returns the assigned value. -/
theorem lookupEntry_setEntry_self (root : RootDict) (k : String) (v : PdfObj) :
    lookupEntry (setEntry root k v) k = some v := by
  induction root with
  | nil => simp [setEntry, lookupEntry]
  | cons e rest ih =>
    by_cases he : e.1 = k
    · simp [setEntry, he, lookupEntry]
    · simp [setEntry, he, lookupEntry, List.find?] at ih ⊢
      simpa [he] using ih

/-- The batch loop is the status map over the PDF-named files, in order. -/
theorem process_all_pdfs_eq (run : String → Except String Unit) (files : List String) :
    process_all_pdfs run files
      = (files.filter endsWithPdf).map (fun f => (f, fileStatusOf (run f))) := by
  induction files with
  | nil => rfl
  | cons f fs ih =>
    by_cases h : endsWithPdf f
    · cases hr : run f <;>
        simp [process_all_pdfs, h, hr, fileStatusOf, List.filter_cons, ih]
    · simp [process_all_pdfs, h, List.filter_cons, ih]

/-! ## Claim theorems -/

/-- Claim C1: a token yields an invisible text insertion iff its stripped
text is nonempty and its confidence is strictly above 50; a token at
confidence exactly 50 is never inserted; and the number of insertions equals
the count of tokens satisfying the predicate. -/
theorem claim1_confidence_filter (sx sy : ℚ) (ts : List OcrToken) :
    insertTextLayer sx sy ts = (ts.filter tokenPasses).map (mkInsertion sx sy) ∧
    (insertTextLayer sx sy ts).length = ts.countP tokenPasses ∧
    (∀ t : OcrToken, tokenPasses t = true ↔ (pyStrip t.text ≠ "" ∧ 50 < t.conf)) ∧
    (∀ t : OcrToken, t.conf = 50 → tokenPasses t = false) := by
  refine ⟨insertTextLayer_eq_filter_map sx sy ts, ?_, ?_, ?_⟩
  · rw [insertTextLayer_eq_filter_map, List.length_map, List.countP_eq_length_filter]
  · intro t
    simp [tokenPasses]
  · intro t h
    simp [tokenPasses, h]

/-- Claim C1 witness: a concrete token with confidence exactly 50 is
rejected by the filter. -/
theorem claim1_witness : tokenPasses ⟨"Hello", 50, 100, 200, 50, 20⟩ = false :=
  (claim1_confidence_filter 1 1 []).2.2.2 ⟨"Hello", 50, 100, 200, 50, 20⟩ rfl

/-- Claim C2: the scale factors are (w_pt / w_px, h_pt / h_px), and the box
covering the full raster maps exactly to the full page rectangle. -/
theorem claim2_geometry_roundtrip (w_pt h_pt : ℚ) (w_px h_px : ℕ)
    (hw : 0 < w_px) (hh : 0 < h_px) :
    scaleFactors w_pt h_pt w_px h_px = (w_pt / (w_px : ℚ), h_pt / (h_px : ℚ)) ∧
    wordRect (scaleFactors w_pt h_pt w_px h_px).1 (scaleFactors w_pt h_pt w_px h_px).2
        0 0 (w_px : Int) (h_px : Int) = ⟨0, 0, w_pt, h_pt⟩ := by
  have hw' : (w_px : ℚ) ≠ 0 := Nat.cast_ne_zero.mpr hw.ne'
  have hh' : (h_px : ℚ) ≠ 0 := Nat.cast_ne_zero.mpr hh.ne'
  refine ⟨rfl, ?_⟩
  simp only [wordRect, scaleFactors, Rect.mk.injEq, Int.cast_zero, Int.cast_natCast,
    zero_mul, zero_add]
  refine ⟨trivial, trivial, ?_, ?_⟩
  · rw [mul_comm, div_mul_cancel₀ _ hw']
  · rw [mul_comm, div_mul_cancel₀ _ hh']

/-- Claim C2 witness: the spec's scenario, a 612x792 pt page rastered at
1000x1400 px. -/
theorem claim2_witness :
    wordRect (scaleFactors 612 792 1000 1400).1 (scaleFactors 612 792 1000 1400).2
        0 0 1000 1400 = ⟨0, 0, 612, 792⟩ :=
  (claim2_geometry_roundtrip 612 792 1000 1400 (by norm_num) (by norm_num)).2

/-- Claim C3: the output document has one page per source page, in order,
with width and height copied from the source page, including when the
confidence filter keeps no token of a page. -/
theorem claim3_page_preservation (input_path : String) (pages : List SourcePage) :
    (create_ocr_compressed_pdf input_path pages).1.pages.length = pages.length ∧
    (create_ocr_compressed_pdf input_path pages).1.pages.map (fun p => (p.width, p.height))
      = pages.map (fun p => (p.width, p.height)) ∧
    (∀ p : SourcePage, (synthesizePage p).width = p.width ∧
      (synthesizePage p).height = p.height ∧
      (p.ocr.filter tokenPasses = [] → (synthesizePage p).insertions = [])) := by
  refine ⟨?_, ?_, ?_⟩
  · show (buildPages pages).length = pages.length
    rw [buildPages_eq_map, List.length_map]
  · show (buildPages pages).map _ = _
    rw [buildPages_eq_map, List.map_map]
    rfl
  · intro p
    refine ⟨rfl, rfl, ?_⟩
    intro hnone
    show insertTextLayer _ _ p.ocr = []
    rw [insertTextLayer_eq_filter_map, hnone, List.map_nil]

/-- Claim C3 witness: a one-page document whose only token fails the filter
still yields one output page of the source dimensions, with no insertions. -/
theorem claim3_witness :
    (synthesizePage ⟨612, 792, 1000, 1400, .RGB, [⟨"noise", 30, 0, 0, 5, 5⟩]⟩).width = 612 ∧
    (synthesizePage ⟨612, 792, 1000, 1400, .RGB, [⟨"noise", 30, 0, 0, 5, 5⟩]⟩).insertions = [] := by
  have h := (claim3_page_preservation "input_pdfs/x.pdf"
    [⟨612, 792, 1000, 1400, .RGB, [⟨"noise", 30, 0, 0, 5, 5⟩]⟩]).2.2
      ⟨612, 792, 1000, 1400, .RGB, [⟨"noise", 30, 0, 0, 5, 5⟩]⟩
  exact ⟨h.1, h.2.2 (by decide)⟩

/-- Claim C10: insertions appear in exactly the engine's token order — the
loop equals the order-preserving filter of the token list, the surviving
tokens form a sublist of the input, and the selected token indices are
strictly increasing. -/
theorem claim10_order_preserved (sx sy : ℚ) (ts : List OcrToken) :
    insertTextLayer sx sy ts = (ts.filter tokenPasses).map (mkInsertion sx sy) ∧
    (ts.filter tokenPasses).Sublist ts ∧
    List.Pairwise (fun i j => i < j)
      (((ts.enum).filter (fun p => tokenPasses p.2)).map Prod.fst) ∧
    insertTextLayer sx sy ts
      = ((ts.enum).filter (fun p => tokenPasses p.2)).map (fun p => mkInsertion sx sy p.2) := by
  refine ⟨insertTextLayer_eq_filter_map sx sy ts, List.filter_sublist ts, ?_, ?_⟩
  · have hsub : ((ts.enum).filter (fun p => tokenPasses p.2)).map Prod.fst |>.Sublist
        ((ts.enum).map Prod.fst) :=
      List.Sublist.map Prod.fst (List.filter_sublist ts.enum)
    rw [List.enum_map_fst] at hsub
    exact (List.pairwise_lt_range ts.length).sublist hsub
  · rw [insertTextLayer_eq_filter_map]
    have h := enumFrom_filter_map_snd ts 0
    calc ((ts.filter tokenPasses).map (mkInsertion sx sy))
        = ((((ts.enum).filter (fun p => tokenPasses p.2)).map Prod.snd).map
            (mkInsertion sx sy)) := by rw [List.enum, h]
      _ = ((ts.enum).filter (fun p => tokenPasses p.2)).map (fun p => mkInsertion sx sy p.2) := by
            rw [List.map_map]
            rfl

/-! ## Concrete sample inputs used by witnesses and counterexamples -/

/-- A deterministic stand-in for the fresh-UUID stream. -/
def uuidSupplySample : ℕ → String := fun n => toString n

/-- An injector environment in which every external step succeeds. -/
def injectEnvOk : InjectEnv :=
  { uuidSupply := uuidSupplySample
    now := "2025-08-26T00:00:00+00:00"
    openFails := false
    markInfoFails := false
    makeStreamFails := false
    saveFails := false }

/-- An injector environment in which reopening the file fails. -/
def injectEnvOpenFail : InjectEnv :=
  { uuidSupply := uuidSupplySample
    now := "2025-08-26T00:00:00+00:00"
    openFails := true
    markInfoFails := false
    makeStreamFails := false
    saveFails := false }

/-- A sample assembled output file, before metadata injection. -/
def fileSample : PdfFile := ⟨[("/Pages", PdfObj.other "pages")]⟩

/-- A sample per-file pipeline in which one file is corrupt. -/
def runSample : String → Except String Unit :=
  fun f => if f = "bad.pdf" then .error "corrupt file" else .ok ()

/-- A sample discovered-file list: a corrupt PDF, a valid PDF, a non-PDF. -/
def filesSample : List String := ["bad.pdf", "good.pdf", "notes.txt"]

/-- Claim C4 counterexample: on a concrete successful run the injector draws
exactly one fresh UUID, not two, and the packet's DocumentID and InstanceID
coincide. -/
theorem claim4_counterexample :
    (add_xmp_metadata_and_markinfo injectEnvOk fileSample "T" "A" "S" "K").uuidCalls = 1 ∧
    (add_xmp_metadata_and_markinfo injectEnvOk fileSample "T" "A" "S" "K").uuidCalls ≠ 2 ∧
    lookupEntry (add_xmp_metadata_and_markinfo injectEnvOk fileSample "T" "A" "S" "K").file.root
        "/Metadata"
      = some (.metadataStream (mkXmpPacket "T" "A" "S" "K" injectEnvOk.now "0")) ∧
    (mkXmpPacket "T" "A" "S" "K" injectEnvOk.now "0").documentID
      = (mkXmpPacket "T" "A" "S" "K" injectEnvOk.now "0").instanceID := by
  refine ⟨rfl, by decide, rfl, rfl⟩

/-- Claim C4 as amended: every successful injector run draws exactly one
fresh UUID and embeds it as both xmpMM:DocumentID and xmpMM:InstanceID,
each formatted `uuid:<uuid4>`. -/
theorem claim4_amended (env : InjectEnv) (file : PdfFile) (t a s k : String)
    (ho : env.openFails = false) (hm : env.markInfoFails = false)
    (hs : env.makeStreamFails = false) (hv : env.saveFails = false) :
    (add_xmp_metadata_and_markinfo env file t a s k).uuidCalls = 1 ∧
    lookupEntry (add_xmp_metadata_and_markinfo env file t a s k).file.root "/Metadata"
      = some (.metadataStream (mkXmpPacket t a s k env.now (env.uuidSupply 0))) ∧
    (mkXmpPacket t a s k env.now (env.uuidSupply 0)).documentID
      = "uuid:" ++ env.uuidSupply 0 ∧
    (mkXmpPacket t a s k env.now (env.uuidSupply 0)).instanceID
      = "uuid:" ++ env.uuidSupply 0 := by
  have hb : addXmpBody env file t a s k
      = .ok (⟨setEntry (setEntry file.root "/MarkInfo" (.markInfo true)) "/Metadata"
          (.metadataStream (mkXmpPacket t a s k env.now (env.uuidSupply 0)))⟩, 1) := by
    simp [addXmpBody, ho, hm, hs, hv]
  rw [add_xmp_metadata_and_markinfo, hb]
  exact ⟨rfl, lookupEntry_setEntry_self _ _ _, rfl, rfl⟩

/-- Claim C4 witness: the amended statement at a concrete environment. -/
theorem claim4_witness :
    (add_xmp_metadata_and_markinfo injectEnvOk fileSample "T" "A" "S" "K").uuidCalls = 1 ∧
    (mkXmpPacket "T" "A" "S" "K" injectEnvOk.now (injectEnvOk.uuidSupply 0)).documentID
      = "uuid:" ++ injectEnvOk.uuidSupply 0 := by
  have h := claim4_amended injectEnvOk fileSample "T" "A" "S" "K" rfl rfl rfl rfl
  exact ⟨h.1, h.2.2.1⟩

/-- Claim C5: every injector failure (at reopening, the MarkInfo edit, the
metadata-stream attachment, or the re-save) is caught: no exception reaches
the caller, the error is logged, and the previously written file is left on
disk unchanged. -/
theorem claim5_failure_contained (env : InjectEnv) (file : PdfFile) (t a s k : String) :
    (add_xmp_metadata_and_markinfo env file t a s k).raised = false ∧
    (∀ msg n, addXmpBody env file t a s k = .error (msg, n) →
      (add_xmp_metadata_and_markinfo env file t a s k).file = file ∧
      (add_xmp_metadata_and_markinfo env file t a s k).errorLogged = true) := by
  constructor
  · rw [add_xmp_metadata_and_markinfo]
    cases addXmpBody env file t a s k with
    | ok r => rfl
    | error e => rfl
  · intro msg n hb
    rw [add_xmp_metadata_and_markinfo, hb]
    exact ⟨rfl, rfl⟩

/-- Claim C5 witness: a concrete failing reopen leaves the file unchanged,
logs the error, and raises nothing. -/
theorem claim5_witness :
    (add_xmp_metadata_and_markinfo injectEnvOpenFail fileSample "T" "A" "S" "K").raised = false ∧
    (add_xmp_metadata_and_markinfo injectEnvOpenFail fileSample "T" "A" "S" "K").file
      = fileSample ∧
    (add_xmp_metadata_and_markinfo injectEnvOpenFail fileSample "T" "A" "S" "K").errorLogged
      = true := by
  have h := claim5_failure_contained injectEnvOpenFail fileSample "T" "A" "S" "K"
  have h2 := h.2 "open failed" 0 rfl
  exact ⟨h.1, h2.1, h2.2⟩

/-- Claim C6: no per-file exception escapes the batch loop — the driver
visits every PDF-named file in order, records a success or a
failure-with-reason for each, and a failing file never prevents later files
from being processed. -/
theorem claim6_batch_isolation (run : String → Except String Unit) (files : List String) :
    process_all_pdfs run files
      = (files.filter endsWithPdf).map (fun f => (f, fileStatusOf (run f))) ∧
    (process_all_pdfs run files).length = (files.filter endsWithPdf).length ∧
    (∀ f, f ∈ files → endsWithPdf f = true →
      (f, fileStatusOf (run f)) ∈ process_all_pdfs run files) ∧
    (∀ f e, run f = .error e → fileStatusOf (run f) = .failure e) := by
  refine ⟨process_all_pdfs_eq run files, ?_, ?_, ?_⟩
  · rw [process_all_pdfs_eq, List.length_map]
  · intro f hf hpdf
    rw [process_all_pdfs_eq]
    exact List.mem_map.mpr ⟨f, List.mem_filter.mpr ⟨hf, hpdf⟩, rfl⟩
  · intro f e he
    rw [he]
    rfl

/-- Claim C6 witness: with a corrupt first PDF, the valid second PDF is
still processed and the corrupt one is recorded as a failure with its
reason. -/
theorem claim6_witness :
    ("good.pdf", fileStatusOf (runSample "good.pdf")) ∈ process_all_pdfs runSample filesSample ∧
    fileStatusOf (runSample "bad.pdf") = .failure "corrupt file" := by
  have h := claim6_batch_isolation runSample filesSample
  refine ⟨h.2.2.1 "good.pdf" (by decide) (by decide), h.2.2.2 "bad.pdf" "corrupt file" rfl⟩

/-- Claim C7: injecting metadata a second time into the injector's own
output raises nothing and overwrites rather than duplicates — the root ends
with exactly one MarkInfo binding and exactly one readable metadata stream. -/
theorem claim7_double_injection (env1 env2 : InjectEnv) (file : PdfFile)
    (t1 a1 s1 k1 t2 a2 s2 k2 : String)
    (hroot : (file.root.map Prod.fst).Nodup)
    (h1o : env1.openFails = false) (h1m : env1.markInfoFails = false)
    (h1s : env1.makeStreamFails = false) (h1v : env1.saveFails = false)
    (h2o : env2.openFails = false) (h2m : env2.markInfoFails = false)
    (h2s : env2.makeStreamFails = false) (h2v : env2.saveFails = false) :
    (add_xmp_metadata_and_markinfo env2
      (add_xmp_metadata_and_markinfo env1 file t1 a1 s1 k1).file t2 a2 s2 k2).raised = false ∧
    (add_xmp_metadata_and_markinfo env2
      (add_xmp_metadata_and_markinfo env1 file t1 a1 s1 k1).file t2 a2 s2 k2).errorLogged
        = false ∧
    countKey (add_xmp_metadata_and_markinfo env2
      (add_xmp_metadata_and_markinfo env1 file t1 a1 s1 k1).file t2 a2 s2 k2).file.root
        "/MarkInfo" = 1 ∧
    countKey (add_xmp_metadata_and_markinfo env2
      (add_xmp_metadata_and_markinfo env1 file t1 a1 s1 k1).file t2 a2 s2 k2).file.root
        "/Metadata" = 1 ∧
    lookupEntry (add_xmp_metadata_and_markinfo env2
      (add_xmp_metadata_and_markinfo env1 file t1 a1 s1 k1).file t2 a2 s2 k2).file.root
        "/Metadata"
      = some (.metadataStream (mkXmpPacket t2 a2 s2 k2 env2.now (env2.uuidSupply 0))) := by
  have hb1 : addXmpBody env1 file t1 a1 s1 k1
      = .ok (⟨setEntry (setEntry file.root "/MarkInfo" (.markInfo true)) "/Metadata"
          (.metadataStream (mkXmpPacket t1 a1 s1 k1 env1.now (env1.uuidSupply 0)))⟩, 1) := by
    simp [addXmpBody, h1o, h1m, h1s, h1v]
  have hf1 : (add_xmp_metadata_and_markinfo env1 file t1 a1 s1 k1).file
      = ⟨setEntry (setEntry file.root "/MarkInfo" (.markInfo true)) "/Metadata"
          (.metadataStream (mkXmpPacket t1 a1 s1 k1 env1.now (env1.uuidSupply 0)))⟩ := by
    rw [add_xmp_metadata_and_markinfo, hb1]
  have hn1 : ((setEntry file.root "/MarkInfo" (.markInfo true)).map Prod.fst).Nodup :=
    nodup_keys_setEntry _ _ _ hroot
  have hn2 : ((setEntry (setEntry file.root "/MarkInfo" (.markInfo true)) "/Metadata"
      (.metadataStream (mkXmpPacket t1 a1 s1 k1 env1.now (env1.uuidSupply 0)))).map
        Prod.fst).Nodup :=
    nodup_keys_setEntry _ _ _ hn1
  rw [hf1]
  have hb2 : addXmpBody env2
      ⟨setEntry (setEntry file.root "/MarkInfo" (.markInfo true)) "/Metadata"
        (.metadataStream (mkXmpPacket t1 a1 s1 k1 env1.now (env1.uuidSupply 0)))⟩ t2 a2 s2 k2
      = .ok (⟨setEntry (setEntry (setEntry (setEntry file.root "/MarkInfo" (.markInfo true))
          "/Metadata" (.metadataStream (mkXmpPacket t1 a1 s1 k1 env1.now (env1.uuidSupply 0))))
          "/MarkInfo" (.markInfo true)) "/Metadata"
          (.metadataStream (mkXmpPacket t2 a2 s2 k2 env2.now (env2.uuidSupply 0)))⟩, 1) := by
    simp [addXmpBody, h2o, h2m, h2s, h2v]
  rw [add_xmp_metadata_and_markinfo, hb2]
  have hn3 : ((setEntry (setEntry (setEntry file.root "/MarkInfo" (.markInfo true)) "/Metadata"
      (.metadataStream (mkXmpPacket t1 a1 s1 k1 env1.now (env1.uuidSupply 0)))) "/MarkInfo"
        (.markInfo true)).map Prod.fst).Nodup :=
    nodup_keys_setEntry _ _ _ hn2
  refine ⟨rfl, rfl, ?_, ?_, ?_⟩
  · rw [countKey_setEntry_ne _ _ _ _ (by decide)]
    exact countKey_setEntry_self _ _ _ hn2
  · exact countKey_setEntry_self _ _ _ hn3
  · exact lookupEntry_setEntry_self _ _ _

/-- Claim C7 witness: the double injection at a concrete environment and
file. -/
theorem claim7_witness :
    countKey (add_xmp_metadata_and_markinfo injectEnvOk
      (add_xmp_metadata_and_markinfo injectEnvOk fileSample "T" "A" "S" "K").file
        "T" "A" "S" "K").file.root "/MarkInfo" = 1 ∧
    countKey (add_xmp_metadata_and_markinfo injectEnvOk
      (add_xmp_metadata_and_markinfo injectEnvOk fileSample "T" "A" "S" "K").file
        "T" "A" "S" "K").file.root "/Metadata" = 1 := by
  have h := claim7_double_injection injectEnvOk injectEnvOk fileSample
    "T" "A" "S" "K" "T" "A" "S" "K" (by decide) rfl rfl rfl rfl rfl rfl rfl rfl
  exact ⟨h.2.2.1, h.2.2.2.1⟩

/-- Claim C8 counterexample: PIL mode LA carries an alpha channel, yet the
compressor's normalization leaves it unconverted, and JPEG encoding of it
hard-fails. -/
theorem claim8_counterexample :
    hasAlpha PILMode.LA = true ∧
    jpegPrepare PILMode.LA = PILMode.LA ∧
    jpegPrepare PILMode.LA ≠ PILMode.RGB ∧
    jpegEncodeOk (jpegPrepare PILMode.LA) = false := by
  decide

/-- Claim C8 as amended: exactly the modes RGBA and P are converted to RGB
before JPEG encoding; for those, compression completes without a hard
failure and the output carries no alpha. -/
theorem claim8_amended (m : PILMode) (h : m = PILMode.RGBA ∨ m = PILMode.P) :
    jpegPrepare m = PILMode.RGB ∧
    jpegEncodeOk (jpegPrepare m) = true ∧
    hasAlpha (jpegPrepare m) = false := by
  rcases h with h | h <;> subst h <;> decide

/-- Claim C8 witness: the amended statement at the RGBA mode. -/
theorem claim8_witness :
    jpegPrepare PILMode.RGBA = PILMode.RGB ∧
    jpegEncodeOk (jpegPrepare PILMode.RGBA) = true :=
  ⟨(claim8_amended PILMode.RGBA (Or.inl rfl)).1,
   (claim8_amended PILMode.RGBA (Or.inl rfl)).2.1⟩

/-- Claim C9: the assembler titles the output from the source filename
(extension dropped, underscores to spaces, title-cased), uses the fixed
institutional defaults for author, subject and keywords, sets these four
values as the document metadata, and returns the same four values for the
metadata injector. -/
theorem claim9_assembler_metadata (input_path : String) (pages : List SourcePage) :
    (create_ocr_compressed_pdf input_path pages).2
      = (deriveTitle input_path, authorDefault, subjectDefault, keywordsDefault) ∧
    (create_ocr_compressed_pdf input_path pages).1.metadata.title = deriveTitle input_path ∧
    (create_ocr_compressed_pdf input_path pages).1.metadata.author = authorDefault ∧
    (create_ocr_compressed_pdf input_path pages).1.metadata.subject = subjectDefault ∧
    (create_ocr_compressed_pdf input_path pages).1.metadata.keywords = keywordsDefault ∧
    deriveTitle "input_pdfs/lymphology_journal_v12.pdf" = "Lymphology Journal V12" :=
  ⟨rfl, rfl, rfl, rfl, rfl, by decide⟩

end PdfUa
